import Mathlib

/-!
Verification development for the certificate-rotation core of library-go.

The repository ships the certificate-rotation controller behind
`NewCertRotationController` / `EnsureConfigMapCABundle` together with its test
suite, the render `GenericOptions` and the cert-graph violation generator.
The controller implementation itself is present in this tree only through its
tests, so the controller is modelled from the specification (marked
`Modelled from the spec:` below), with every behavioural choice pinned by the
test files of the repository.  `GenericOptions.Validate` and
`GenerateViolationNoOwner` are embedded directly from their Go sources.

Shallow-embedding conventions:
- PEM payloads are modelled as the list of certificates they encode
  (PEM encoding is injective, so byte equality of payloads is list equality);
- wall-clock instants and durations are naturals, in milliseconds;
- randomness (serial numbers, fresh key pairs) is modelled by a deterministic
  counter threaded through the state;
- the object store (the kube apiserver seen through the fake clientset used by
  the tests) is a pair of name-keyed lists, and every get/create/update issued
  against it is recorded in a trace.
-/

namespace LibraryGo

namespace CertRotation

/-- Modelled from the spec: an X.509 certificate as the rotation logic reads
it.  `issuer` is the issuer DN (the issuing CA's subject CN), `serial` the
serial number, `pubKeyId` identifies the embedded public key so that two
certificates generated from distinct key pairs differ even when they share
subject, issuer and serial (distinct raw bytes), `sans` the DNS SAN set of a
serving leaf. -/
structure Cert where
  issuer : String
  subjectCN : String
  serial : Nat
  pubKeyId : Nat
  notBefore : Nat
  notAfter : Nat
  isCA : Bool
  sans : List String
deriving DecidableEq, Repr

/-- The (issuer DN, serial) pair of a certificate. -/
def certKey (c : Cert) : String × Nat := (c.issuer, c.serial)

/-- Modelled from the spec: a secret-like persisted record (payload keys
`tls.crt` / `tls.key`) with the annotations and metadata the rotation logic
maintains: `certs` is the parsed `tls.crt` payload, `keyId` the `tls.key`
payload identity, `issuerAnn` the `certificate-issuer` annotation, the
not-before/not-after annotations mirror the embedded certificate validity
window, `owningComponent` the `openshift.io/owning-component` annotation and
`rv` the resource version (none when the record was never persisted). -/
structure SecretRec where
  name : String
  certs : List Cert
  keyId : Nat
  issuerAnn : Option String
  notBeforeAnn : Option Nat
  notAfterAnn : Option Nat
  ownerRefs : List String
  owningComponent : Option String
  certType : Option String
  rv : Option Nat
deriving DecidableEq, Repr

/-- Modelled from the spec: a configmap-like persisted record holding the
trust bundle under the `ca-bundle.crt` key. -/
structure ConfigMapRec where
  name : String
  bundle : List Cert
  ownerRefs : List String
  owningComponent : Option String
  certType : Option String
  rv : Option Nat
deriving DecidableEq, Repr

/-- Modelled from the spec: the key-value object store (get/create/update),
name-keyed secrets and configmaps. -/
structure Store where
  secrets : List SecretRec
  configmaps : List ConfigMapRec
deriving DecidableEq, Repr

/-- One call issued against the store, as recorded by the fake clientset
action trace in the tests. -/
inductive StoreAction where
  | getSecret (name : String)
  | createSecret (name : String)
  | updateSecret (name : String)
  | getConfigMap (name : String)
  | createConfigMap (name : String)
  | updateConfigMap (name : String)
deriving DecidableEq, Repr

def lookupSecret (l : List SecretRec) (name : String) : Option SecretRec :=
  l.find? (fun s => s.name == name)

def lookupConfigMap (l : List ConfigMapRec) (name : String) : Option ConfigMapRec :=
  l.find? (fun s => s.name == name)

/-- Modelled from the spec: the create-or-update writer (`ApplySecret`):
read the record from the store; create it when absent, update it otherwise.
Returns the new store and the store calls issued. -/
def applySecret (st : Store) (s : SecretRec) : Store × List StoreAction :=
  match lookupSecret st.secrets s.name with
  | none =>
    ({ st with secrets := st.secrets ++ [s] },
     [StoreAction.getSecret s.name, StoreAction.createSecret s.name])
  | some _ =>
    ({ st with secrets := st.secrets.map (fun t => if t.name == s.name then s else t) },
     [StoreAction.getSecret s.name, StoreAction.updateSecret s.name])

/-- Modelled from the spec: the create-or-update writer for configmaps
(`ApplyConfigMap`). -/
def applyConfigMap (st : Store) (c : ConfigMapRec) : Store × List StoreAction :=
  match lookupConfigMap st.configmaps c.name with
  | none =>
    ({ st with configmaps := st.configmaps ++ [c] },
     [StoreAction.getConfigMap c.name, StoreAction.createConfigMap c.name])
  | some _ =>
    ({ st with configmaps := st.configmaps.map (fun t => if t.name == c.name then c else t) },
     [StoreAction.getConfigMap c.name, StoreAction.updateConfigMap c.name])

/-- Modelled from the spec: owner-reference aggregation - append the owner if
absent, never rewrite an existing entry.  Returns the new list and whether it
changed. -/
def ensureOwnerRef (refs : List String) (owner : String) : List String × Bool :=
  if refs.contains owner then (refs, false) else (refs ++ [owner], true)

/-- Modelled from the spec: the `owning-component` annotation is written only
when the record has no existing value; later writers do not overwrite it. -/
def ensureComponent (cur : Option String) (jira : String) : Option String × Bool :=
  match cur with
  | some v => (some v, false)
  | none => (some jira, true)

/-- The duplicate-elimination loop of the bundle manager: walk the candidate
list in order and append a certificate to the kept list only when an equal
certificate (same raw bytes, here: structural equality) has not been kept
already, preserving first occurrences.  The tests
(`TestEnsureConfigMapCABundle`, case "update keep both") require two distinct
certificates sharing issuer and serial to both survive, so the key is the
full certificate, not the (issuer, serial) pair. -/
def dedupCertsLoop (kept : List Cert) : List Cert → List Cert
  | [] => kept
  | c :: rest =>
    if kept.contains c then dedupCertsLoop kept rest
    else dedupCertsLoop (kept ++ [c]) rest

/-- Duplicate elimination over certificates, starting from an empty kept
list. -/
def dedupCerts (l : List Cert) : List Cert := dedupCertsLoop [] l

/-- Modelled from the spec: the trust-bundle merge - concatenate the required
certificates (current signer, plus the previous signer certificate when a
rotation just produced one) with the existing bundle contents, drop every
certificate whose `NotAfter` is not in the future, and eliminate duplicates
keeping first occurrences. -/
def mergeBundle (required existing : List Cert) (now : Nat) : List Cert :=
  dedupCerts ((required ++ existing).filter (fun c => now < c.notAfter))

/-- Modelled from the spec: generate a fresh self-signed signing CA.  The
subject CN carries the freshness counter (the source appends the creation
timestamp), the serial and key identity are drawn from the counter (the source
draws a random 64-bit serial and a fresh key pair). -/
def newSigningCA (name : String) (now validity rng : Nat) : Cert :=
  let cn := name ++ "@" ++ toString rng
  { issuer := cn, subjectCN := cn, serial := rng, pubKeyId := rng,
    notBefore := now, notAfter := now + validity, isCA := true, sans := [] }

/-- Modelled from the spec: generate a fresh serving leaf certificate signed
by the given CA, embedding the configured hostnames as SANs. -/
def newLeafCert (ca : Cert) (name : String) (hostnames : List String)
    (now validity rng : Nat) : Cert :=
  { issuer := ca.subjectCN, subjectCN := name, serial := rng, pubKeyId := rng,
    notBefore := now, notAfter := now + validity, isCA := false, sans := hostnames }

/-- Modelled from the spec: configuration of the signer rotator
(`RotatedSigningCASecret`). -/
structure SignerConfig where
  name : String
  validity : Nat
  refresh : Nat
deriving DecidableEq, Repr

/-- Modelled from the spec: configuration of the bundle rotator
(`CABundleConfigMap`). -/
structure BundleConfig where
  name : String
deriving DecidableEq, Repr

/-- Modelled from the spec: configuration of a leaf rotator
(`RotatedSelfSignedCertKeySecret` with a `ServingRotation` creator). -/
structure TargetConfig where
  name : String
  validity : Nat
  refresh : Nat
  refreshOnlyWhenExpired : Bool
  hostnames : List String
deriving DecidableEq, Repr

/-- Modelled from the spec: a whole reconciler configuration
(`NewCertRotationController` / `NewCertRotationControllerMultipleTargets`). -/
structure ControllerConfig where
  signer : SignerConfig
  bundle : BundleConfig
  targets : List TargetConfig
  owner : String
  jiraComponent : String
deriving DecidableEq, Repr

/-- The world one reconciler activation sees: the store, the read-only
informer cache snapshot, the clock, the freshness counter, the trace of store
calls issued so far and the log of `NeedNewTargetCertKeyPair` invocations
(one entry per queried target, by name). -/
structure World where
  store : Store
  cache : Store
  now : Nat
  rng : Nat
  trace : List StoreAction
  calls : List String
deriving DecidableEq, Repr

def skeletonSecret (name : String) : SecretRec :=
  { name := name, certs := [], keyId := 0, issuerAnn := none,
    notBeforeAnn := none, notAfterAnn := none, ownerRefs := [],
    owningComponent := none, certType := none, rv := none }

def skeletonConfigMap (name : String) : ConfigMapRec :=
  { name := name, bundle := [], ownerRefs := [],
    owningComponent := none, certType := none, rv := none }

/-- Result of the signer rotator: the current CA (certificate plus key
identity) and, when a rotation just replaced a readable signer, the previous
certificate, retained for bundling. -/
structure SignerResult where
  ca : Cert
  caKeyId : Nat
  previous : Option Cert
deriving DecidableEq, Repr

/-- Modelled from the spec: generate a new signing CA and persist it with the
create-or-update writer, aggregating owner references and writing the
owning-component annotation only when absent. -/
def writeNewSigner (cfg : ControllerConfig) (w : World) (old : Option SecretRec)
    (previous : Option Cert) : SignerResult × World :=
  let ca := newSigningCA cfg.signer.name w.now cfg.signer.validity w.rng
  let base := old.getD (skeletonSecret cfg.signer.name)
  let sec : SecretRec :=
    { base with
      certs := [ca], keyId := w.rng, issuerAnn := some ca.subjectCN,
      notBeforeAnn := some ca.notBefore, notAfterAnn := some ca.notAfter,
      certType := some "signer",
      ownerRefs := (ensureOwnerRef base.ownerRefs cfg.owner).1,
      owningComponent := (ensureComponent base.owningComponent cfg.jiraComponent).1 }
  let (st, acts) := applySecret w.store sec
  ({ ca := ca, caKeyId := w.rng, previous := previous },
   { w with store := st, rng := w.rng + 1, trace := w.trace ++ acts })

/-- Modelled from the spec: `EnsureSigningCASecret`.  Read the persisted
signer through the informer cache; create a new CA when it is missing or its
payload does not parse; rotate it (persisting by update, emitting the previous
certificate) when past refresh or past expiry; otherwise return it
unchanged with no store call. -/
def ensureSigningCASecret (cfg : ControllerConfig) (w : World) : SignerResult × World :=
  match lookupSecret w.cache.secrets cfg.signer.name with
  | none => writeNewSigner cfg w none none
  | some s =>
    match s.certs.head? with
    | none => writeNewSigner cfg w (some s) none
    | some c =>
      if c.notBefore + cfg.signer.refresh ≤ w.now ∨ c.notAfter ≤ w.now then
        writeNewSigner cfg w (some s) (some c)
      else
        ({ ca := c, caKeyId := s.keyId, previous := none }, w)

/-- Modelled from the spec: `EnsureConfigMapCABundle`.  Read the bundle
through the informer cache (tolerating absence); aggregate owner references
and the owning-component annotation, persisting a metadata-only update first
when the record pre-exists (has a resource version); merge the required
certificates with the existing contents; persist the merged bundle with the
create-or-update writer only when the payload changed.  Returns the merged
certificate list. -/
def ensureConfigMapCABundle (cfg : ControllerConfig) (sr : SignerResult)
    (w : World) : List Cert × World :=
  let orig := lookupConfigMap w.cache.configmaps cfg.bundle.name
  let base := orig.getD (skeletonConfigMap cfg.bundle.name)
  let (refs, ownerChanged) := ensureOwnerRef base.ownerRefs cfg.owner
  let (comp, compChanged) := ensureComponent base.owningComponent cfg.jiraComponent
  let cm1 : ConfigMapRec := { base with ownerRefs := refs, owningComponent := comp }
  let w :=
    if (ownerChanged || compChanged) && cm1.rv.isSome then
      let (st, acts) := applyConfigMap w.store cm1
      { w with store := st, trace := w.trace ++ acts }
    else w
  let required := sr.ca :: sr.previous.toList
  let newBundle := mergeBundle required cm1.bundle w.now
  if orig.isNone || newBundle ≠ cm1.bundle then
    let cm2 : ConfigMapRec := { cm1 with bundle := newBundle, certType := some "ca-bundle" }
    let (st, acts) := applyConfigMap w.store cm2
    (newBundle, { w with store := st, trace := w.trace ++ acts })
  else
    (newBundle, w)

/-- Modelled from the spec: `NeedNewTargetCertKeyPair` for a serving leaf.
Returns a non-empty reason when the leaf is missing or unreadable, already
expired, past refresh (unless refresh-only-when-expired), its issuer
annotation names no CA currently in the bundle, or its SAN set differs from
the configured hostnames. -/
def needNewTargetCertKeyPair (cur : Option SecretRec) (caBundleCerts : List Cert)
    (t : TargetConfig) (now : Nat) : Option String :=
  match cur with
  | none => some "missing target secret"
  | some s =>
    match s.certs.head? with
    | none => some "missing certificate"
    | some c =>
      if c.notAfter ≤ now then some "already expired"
      else if ¬ t.refreshOnlyWhenExpired ∧ c.notBefore + t.refresh ≤ now then
        some "past its refresh time"
      else if ¬ caBundleCerts.any (fun ca => s.issuerAnn == some ca.subjectCN) then
        some "issuer not in ca bundle"
      else if c.sans ≠ t.hostnames then some "hostnames changed"
      else none

/-- Modelled from the spec: `EnsureTargetCertKeySecret`.  Query
`NeedNewTargetCertKeyPair` (every invocation is logged, mirroring the
call-count bookkeeping of the fake target creator in the tests); when a
reason comes back, sign a fresh leaf with the current CA, stamp the
annotations and persist with the create-or-update writer; otherwise perform
no store call. -/
def ensureTargetCertKeySecret (cfg : ControllerConfig) (sr : SignerResult)
    (caBundleCerts : List Cert) (w : World) (t : TargetConfig) : World :=
  let cur := lookupSecret w.cache.secrets t.name
  let w := { w with calls := w.calls ++ [t.name] }
  match needNewTargetCertKeyPair cur caBundleCerts t w.now with
  | none => w
  | some _ =>
    let leaf := newLeafCert sr.ca t.name t.hostnames w.now t.validity w.rng
    let base := cur.getD (skeletonSecret t.name)
    let sec : SecretRec :=
      { base with
        certs := [leaf], keyId := w.rng, issuerAnn := some sr.ca.subjectCN,
        notBeforeAnn := some leaf.notBefore, notAfterAnn := some leaf.notAfter,
        certType := some "serving",
        ownerRefs := (ensureOwnerRef base.ownerRefs cfg.owner).1,
        owningComponent := (ensureComponent base.owningComponent cfg.jiraComponent).1 }
    let (st, acts) := applySecret w.store sec
    { w with store := st, rng := w.rng + 1, trace := w.trace ++ acts }

/-- Modelled from the spec: one reconciler activation
(`CertRotationController.Sync`) - ensure the signer, then the bundle with the
signer's output, then every configured leaf in order, each signed by the
current CA against the current bundle. -/
def Sync (cfg : ControllerConfig) (w : World) : World :=
  let (sr, w) := ensureSigningCASecret cfg w
  let (caBundleCerts, w) := ensureConfigMapCABundle cfg sr w
  cfg.targets.foldl (ensureTargetCertKeySecret cfg sr caBundleCerts) w

/-- The single-leaf configuration of the cold-create scenarios: 24h validity,
12h refresh (in milliseconds), one serving leaf with hostnames
`["foo","bar"]`, as in `TestCertRotationController`. -/
def testConfig : ControllerConfig :=
  { signer := { name := "test-signer", validity := 86400000, refresh := 43200000 },
    bundle := { name := "test-ca" },
    targets := [{ name := "test-target", validity := 86400000, refresh := 43200000,
                  refreshOnlyWhenExpired := false, hostnames := ["foo", "bar"] }],
    owner := "operator", jiraComponent := "test" }

/-- The empty starting world: empty store, empty informer cache, clock at 0. -/
def startWorld : World :=
  { store := { secrets := [], configmaps := [] },
    cache := { secrets := [], configmaps := [] },
    now := 0, rng := 0, trace := [], calls := [] }

/-- World after the cold-create `Sync` (scenario 1). -/
def worldCold : World := Sync testConfig startWorld

/-- World ready for the second sync of scenario 2: the three created records
are placed in the informer cache, the action trace is cleared, the clock does
not advance. -/
def worldCachedAll : World :=
  { worldCold with cache := worldCold.store, trace := [] }

/-- World after the idempotent second `Sync` (scenario 2). -/
def worldSecond : World := Sync testConfig worldCachedAll

/-- Informer-cache contents for scenario 3: the created CA bundle and target
are cached, the signer record is lost from the cache. -/
def cacheSignerLost : Store :=
  { secrets := worldCold.store.secrets.filter (fun s => s.name != "test-signer"),
    configmaps := worldCold.store.configmaps }

/-- World ready for scenario 3: only the CA bundle and the target are cached;
trace cleared, clock unchanged. -/
def worldSignerLost : World :=
  { worldCold with cache := cacheSignerLost, trace := [] }

/-- World after the signer-regeneration `Sync` (scenario 3). -/
def worldRegen : World := Sync testConfig worldSignerLost

/-- Configuration of the expired-signer scenario: validity one second
(1000 ms), refresh half of it, as in
`TestCertRotationControllerFilterExpiredSigners`. -/
def fastConfig : ControllerConfig :=
  { signer := { name := "test-signer", validity := 1000, refresh := 500 },
    bundle := { name := "test-ca" },
    targets := [{ name := "test-target", validity := 1000, refresh := 500,
                  refreshOnlyWhenExpired := false, hostnames := ["foo", "bar"] }],
    owner := "operator", jiraComponent := "test" }

/-- World after the cold-create `Sync` of the expired-signer scenario. -/
def worldFastCold : World := Sync fastConfig startWorld

/-- Informer-cache contents for scenario 4: the created CA bundle and target
are cached, the signer is not. -/
def cacheFastSignerLost : Store :=
  { secrets := worldFastCold.store.secrets.filter (fun s => s.name != "test-signer"),
    configmaps := worldFastCold.store.configmaps }

/-- World ready for scenario 4: one validity period (1s) has elapsed, so
every certificate of the first generation is now expired. -/
def worldFastElapsed : World :=
  { worldFastCold with cache := cacheFastSignerLost, now := 1000, trace := [] }

/-- World after the pruning `Sync` of scenario 4. -/
def worldFastPruned : World := Sync fastConfig worldFastElapsed

/-- The first-generation signing certificate of the expired-signer
scenario. -/
def oldFastSignerCert : Cert := newSigningCA "test-signer" 0 1000 0

/-- The regenerated signing certificate of the expired-signer scenario. -/
def newFastSignerCert : Cert := newSigningCA "test-signer" 1000 1000 2

/-- Modelled from the spec: the dispatcher state - the deduplicating
single-key queue (`pending`) in front of the reconciler's world.  A recheck
pulse from a leaf rotator enqueues the key; a worker turn drains it, running
one `Sync`. -/
structure DispatchState where
  world : World
  pending : Bool
deriving DecidableEq, Repr

/-- An event the dispatcher reacts to: a recheck pulse published by a leaf
rotator, or one turn of the single worker draining the queue. -/
inductive DispatchEvent where
  | pulse
  | turn
deriving DecidableEq, Repr

/-- Modelled from the spec: one dispatcher transition.  A pulse enqueues the
(single, coalescing) sync key; a worker turn runs `Sync` exactly when the key
is pending and clears it, and is a no-op otherwise. -/
def dispatchStep (cfg : ControllerConfig) (s : DispatchState) :
    DispatchEvent → DispatchState
  | DispatchEvent.pulse => { s with pending := true }
  | DispatchEvent.turn =>
    if s.pending then { world := Sync cfg s.world, pending := false } else s

/-- Run the dispatcher over a sequence of events. -/
def dispatchRun (cfg : ControllerConfig) (s : DispatchState)
    (evs : List DispatchEvent) : DispatchState :=
  evs.foldl (dispatchStep cfg) s

/-- The two-target configuration of
`TestCertRotationControllerMultipleTargetsPostRunHooks`. -/
def twoTargetConfig : ControllerConfig :=
  { signer := { name := "test-signer", validity := 86400000, refresh := 43200000 },
    bundle := { name := "test-ca" },
    targets := [{ name := "test-target-one", validity := 86400000, refresh := 43200000,
                  refreshOnlyWhenExpired := false, hostnames := ["foo", "bar"] },
                { name := "test-target-two", validity := 86400000, refresh := 43200000,
                  refreshOnlyWhenExpired := false, hostnames := ["foo", "bar"] }],
    owner := "operator", jiraComponent := "test" }

/-- Dispatcher start state: empty world, initial sync already enqueued (the
controller factory schedules an immediate first resync). -/
def dispatchStart : DispatchState := { world := startWorld, pending := true }

/-- The recheck scenario: the initial sync fires, then each of the two leaf
rotators publishes one recheck pulse, each drained by the next worker
turn. -/
def dispatchAfterPulses : DispatchState :=
  dispatchRun twoTargetConfig dispatchStart
    [DispatchEvent.turn, DispatchEvent.pulse, DispatchEvent.turn,
     DispatchEvent.pulse, DispatchEvent.turn]

/-- A test CA as produced by `newTestCACertificate`: subject and issuer CN
`signer-tests`, serial 1, validity 60 days (in milliseconds). -/
def caSignerTestsA : Cert :=
  { issuer := "signer-tests", subjectCN := "signer-tests", serial := 1,
    pubKeyId := 10, notBefore := 0, notAfter := 5184000000, isCA := true, sans := [] }

/-- A second, distinct test CA from an independent key pair that nevertheless
shares subject, issuer DN and serial number with `caSignerTestsA` - exactly
the pair of certificates the "update keep both" case of
`TestEnsureConfigMapCABundle` feeds to the bundle merge. -/
def caSignerTestsB : Cert :=
  { issuer := "signer-tests", subjectCN := "signer-tests", serial := 1,
    pubKeyId := 11, notBefore := 0, notAfter := 5184000000, isCA := true, sans := [] }

/-- The starting configmap of `TestConfigMapHotloop`: pre-existing
(resource version 10), empty payload, no owner reference, no
owning-component annotation. -/
def hotloopStartCM : ConfigMapRec :=
  { name := "trust-bundle", bundle := [], ownerRefs := [],
    owningComponent := none, certType := none, rv := some 10 }

def hotloopStore : Store := { secrets := [], configmaps := [hotloopStartCM] }

/-- Hotloop starting world: the configmap is both persisted and cached. -/
def hotloopWorld : World :=
  { store := hotloopStore, cache := hotloopStore, now := 1000, rng := 0,
    trace := [], calls := [] }

/-- The first writer of the hotloop test: owner `operator_1`, owning
component `test_1` (only the bundle part of the configuration is used by
`ensureConfigMapCABundle`). -/
def hotloopCfg1 : ControllerConfig :=
  { signer := { name := "trust-bundle-signer", validity := 0, refresh := 0 },
    bundle := { name := "trust-bundle" }, targets := [],
    owner := "operator_1", jiraComponent := "test_1" }

/-- The second writer of the hotloop test: owner `operator_2`, owning
component `test_2`. -/
def hotloopCfg2 : ControllerConfig :=
  { signer := { name := "trust-bundle-signer", validity := 0, refresh := 0 },
    bundle := { name := "trust-bundle" }, targets := [],
    owner := "operator_2", jiraComponent := "test_2" }

/-- The signer result both hotloop writers share: the same current CA, no
previous certificate. -/
def hotloopSigner : SignerResult :=
  { ca := caSignerTestsA, caKeyId := 0, previous := none }

/-- First hotloop reconcile: writer 1 ensures the bundle. -/
def hotloopRun1 : List Cert × World :=
  ensureConfigMapCABundle hotloopCfg1 hotloopSigner hotloopWorld

/-- The persisted configmap after writer 1's reconcile. -/
def hotloopCMAfter1 : ConfigMapRec :=
  (lookupConfigMap hotloopRun1.2.store.configmaps "trust-bundle").getD
    (skeletonConfigMap "trust-bundle")

/-- The world left behind by writer 1's reconcile. -/
def hotloopWorldAfter1 : World := hotloopRun1.2

/-- The store left behind by writer 1's reconcile. -/
def hotloopStoreAfter1 : Store := hotloopWorldAfter1.store

/-- World for the second cycle: the informer cache observes writer 1's
result, the action trace is cleared. -/
def hotloopWorld2 : World :=
  { hotloopWorldAfter1 with cache := hotloopStoreAfter1, trace := [] }

/-- Second hotloop reconcile: writer 2 ensures the same bundle. -/
def hotloopRun2 : List Cert × World :=
  ensureConfigMapCABundle hotloopCfg2 hotloopSigner hotloopWorld2

/-- The persisted configmap after writer 2's reconcile. -/
def hotloopCMAfter2 : ConfigMapRec :=
  (lookupConfigMap hotloopRun2.2.store.configmaps "trust-bundle").getD
    (skeletonConfigMap "trust-bundle")

end CertRotation

namespace RenderOptions

/-- The four feature-set names of the external `configv1` package consumed by
`GenericOptions.Validate`: the default feature set is the empty string. -/
def FeatureSetDefault : String := ""

def FeatureSetTechPreviewNoUpgrade : String := "TechPreviewNoUpgrade"

def FeatureSetCustomNoUpgrade : String := "CustomNoUpgrade"

def FeatureSetLatencySensitive : String := "LatencySensitive"

/-- The generic render command options (`pkg/operator/render/options/generic.go`). -/
structure GenericOptions where
  DefaultFile : String
  BootstrapOverrideFile : String
  AdditionalConfigOverrideFiles : List String
  ConfigOutputFile : String
  TemplatesDir : String
  AssetInputDir : String
  AssetOutputDir : String
  FeatureSet : String
deriving DecidableEq, Repr

/-- `NewGenericOptions` returns a default set of generic options. -/
def NewGenericOptions : GenericOptions :=
  { DefaultFile := "", BootstrapOverrideFile := "",
    AdditionalConfigOverrideFiles := [], ConfigOutputFile := "",
    TemplatesDir := "/usr/share/bootkube/manifests",
    AssetInputDir := "", AssetOutputDir := "", FeatureSet := "" }

/-- `Validate` verifies the inputs: each of the four required paths must be
non-empty, and the feature set must be one of the four known feature sets.
The receiver is only read, never written.  A `some` result is the returned
error message. -/
def GenericOptions.Validate (o : GenericOptions) : Option String :=
  if o.AssetInputDir.length = 0 then
    some "missing required flag: --asset-input-dir"
  else if o.AssetOutputDir.length = 0 then
    some "missing required flag: --asset-output-dir"
  else if o.TemplatesDir.length = 0 then
    some "missing required flag: --templates-dir"
  else if o.ConfigOutputFile.length = 0 then
    some "missing required flag: --config-output-file"
  else if o.FeatureSet = FeatureSetDefault ∨
          o.FeatureSet = FeatureSetTechPreviewNoUpgrade ∨
          o.FeatureSet = FeatureSetCustomNoUpgrade ∨
          o.FeatureSet = FeatureSetLatencySensitive then
    none
  else
    some ("invalid feature-set specified: " ++ o.FeatureSet)

end RenderOptions

namespace CertGraphUtils

def unknownOwner : String := "Unknown"

/-- Ownership information attached to an in-cluster certificate key pair
(`certgraphapi.PKIRegistryCertKeyPairInfo`). -/
structure PKIRegistryCertKeyPairInfo where
  OwningJiraComponent : String
  Description : String
deriving DecidableEq, Repr

/-- Location of an in-cluster secret. -/
structure InClusterSecretLocation where
  Namespace : String
  Name : String
deriving DecidableEq, Repr

/-- An in-cluster certificate key pair tracked by the PKI registry. -/
structure PKIRegistryInClusterCertKeyPair where
  SecretLocation : InClusterSecretLocation
  CertKeyInfo : PKIRegistryCertKeyPairInfo
deriving DecidableEq, Repr

/-- Ownership information attached to an in-cluster CA bundle
(`certgraphapi.PKIRegistryCertificateAuthorityInfo`). -/
structure PKIRegistryCertificateAuthorityInfo where
  OwningJiraComponent : String
  Description : String
deriving DecidableEq, Repr

/-- Location of an in-cluster configmap. -/
structure InClusterConfigMapLocation where
  Namespace : String
  Name : String
deriving DecidableEq, Repr

/-- An in-cluster CA bundle tracked by the PKI registry. -/
structure PKIRegistryInClusterCABundle where
  ConfigMapLocation : InClusterConfigMapLocation
  CABundleInfo : PKIRegistryCertificateAuthorityInfo
deriving DecidableEq, Repr

/-- The PKI registry (`certgraphapi.PKIRegistryInfo`): the tracked
certificate key pairs and CA bundles, in registry order. -/
structure PKIRegistryInfo where
  CertKeyPairs : List PKIRegistryInClusterCertKeyPair
  CertificateAuthorityBundles : List PKIRegistryInClusterCABundle
deriving DecidableEq, Repr

/-- A violation report: the registry restricted to the offending entries, the
rendered markdown and the comparison functions used downstream.  A `some`
result of a compare function is the returned error message. -/
structure Violation where
  name : String
  markdown : String
  registry : PKIRegistryInfo
  secretCompareFn :
    PKIRegistryCertKeyPairInfo → PKIRegistryCertKeyPairInfo → Option String
  configMapCompareFn :
    PKIRegistryCertificateAuthorityInfo → PKIRegistryCertificateAuthorityInfo →
      Option String

/-- `diffCertKeyPairOwners` compares the owning JIRA component of two cert
key pairs. -/
def diffCertKeyPairOwners (actual expected : PKIRegistryCertKeyPairInfo) :
    Option String :=
  if actual.OwningJiraComponent ≠ expected.OwningJiraComponent then
    some ("expected JIRA component to be " ++ expected.OwningJiraComponent ++
          ", but was " ++ actual.OwningJiraComponent)
  else none

/-- `diffCABundleOwners` compares the owning JIRA component of two CA
bundles. -/
def diffCABundleOwners (actual expected : PKIRegistryCertificateAuthorityInfo) :
    Option String :=
  if actual.OwningJiraComponent ≠ expected.OwningJiraComponent then
    some ("expected JIRA component to be " ++ expected.OwningJiraComponent ++
          ", but was " ++ actual.OwningJiraComponent)
  else none

/-- The ownerless test of `GenerateViolationNoOwner`: the owning JIRA
component is empty or the literal `Unknown`. -/
def hasNoOwner (owner : String) : Bool :=
  owner.length == 0 || owner == unknownOwner

/-- The cert-key-pair collection loop of `GenerateViolationNoOwner`: walk the
registry in order and keep every entry whose owner is empty or `Unknown`. -/
def collectCertKeyPairsNoOwner :
    List PKIRegistryInClusterCertKeyPair → List PKIRegistryInClusterCertKeyPair
  | [] => []
  | curr :: rest =>
    if hasNoOwner curr.CertKeyInfo.OwningJiraComponent then
      curr :: collectCertKeyPairsNoOwner rest
    else
      collectCertKeyPairsNoOwner rest

/-- The CA-bundle collection loop of `GenerateViolationNoOwner`. -/
def collectCABundlesNoOwner :
    List PKIRegistryInClusterCABundle → List PKIRegistryInClusterCABundle
  | [] => []
  | curr :: rest =>
    if hasNoOwner curr.CABundleInfo.OwningJiraComponent then
      curr :: collectCABundlesNoOwner rest
    else
      collectCABundlesNoOwner rest

/-- Append a value to the entry of `k` in an owner-keyed multimap, creating
the entry when absent (the Go code appends to `map[owner]`). -/
def ownerMapAdd (m : List (String × List α)) (k : String) (v : α) :
    List (String × List α) :=
  if m.any (fun e => e.1 == k) then
    m.map (fun e => if e.1 == k then (e.1, e.2 ++ [v]) else e)
  else
    m ++ [(k, [v])]

/-- Look up the entries of `k` in an owner-keyed multimap. -/
def ownerMapGet (m : List (String × List α)) (k : String) : List α :=
  match m.find? (fun e => e.1 == k) with
  | some e => e.2
  | none => []

/-- One numbered markdown item for a certificate without (or with) owner. -/
def certMarkdownItem (i : Nat) (c : PKIRegistryInClusterCertKeyPair) : String :=
  toString (i + 1) ++ ". ns/" ++ c.SecretLocation.Namespace ++ " secret/" ++
    c.SecretLocation.Name ++ "\n\n" ++ "     **Description:** " ++
    c.CertKeyInfo.Description ++ "\n"

/-- One numbered markdown item for a CA bundle without (or with) owner. -/
def caBundleMarkdownItem (i : Nat) (b : PKIRegistryInClusterCABundle) : String :=
  toString (i + 1) ++ ". ns/" ++ b.ConfigMapLocation.Namespace ++ " configmap/" ++
    b.ConfigMapLocation.Name ++ "\n\n" ++ "     **Description:** " ++
    b.CABundleInfo.Description ++ "\n"

/-- `generateMarkdownNoOwner` renders the missing-owners report: the
ownerless certificates and CA bundles first, then the known owners in sorted
order with their entries.  It always succeeds. -/
def generateMarkdownNoOwner (pkiInfo : PKIRegistryInfo) : Except String String :=
  let certsWithoutOwners := pkiInfo.CertKeyPairs.filter
    (fun c => hasNoOwner c.CertKeyInfo.OwningJiraComponent)
  let certsByOwner := pkiInfo.CertKeyPairs.foldl
    (fun m c =>
      if hasNoOwner c.CertKeyInfo.OwningJiraComponent then m
      else ownerMapAdd m c.CertKeyInfo.OwningJiraComponent c)
    []
  let caBundlesWithoutOwners := pkiInfo.CertificateAuthorityBundles.filter
    (fun b => hasNoOwner b.CABundleInfo.OwningJiraComponent)
  let caBundlesByOwner := pkiInfo.CertificateAuthorityBundles.foldl
    (fun m b =>
      if hasNoOwner b.CABundleInfo.OwningJiraComponent then m
      else ownerMapAdd m b.CABundleInfo.OwningJiraComponent b)
    []
  let allOwners :=
    ((certsByOwner.map Prod.fst) ++ (caBundlesByOwner.map Prod.fst)).dedup.mergeSort
      (fun a b => !decide (b < a))
  let md :=
    "## Missing Owners\n" ++
    (if certsWithoutOwners.length > 0 then
      "### Certificates\n" ++
      String.join (certsWithoutOwners.enum.map (fun e => certMarkdownItem e.1 e.2)) ++
      "\n"
     else "") ++
    (if caBundlesWithoutOwners.length > 0 then
      "### Certificate Authority Bundles\n" ++
      String.join
        (caBundlesWithoutOwners.enum.map (fun e => caBundleMarkdownItem e.1 e.2)) ++
      "\n"
     else "") ++
    "## Known Owners\n" ++
    String.join (allOwners.map (fun owner =>
      "## " ++ owner ++ "\n" ++
      (let certs := ownerMapGet certsByOwner owner
       if certs.length > 0 then
         "### Certificates\n" ++
         String.join (certs.enum.map (fun e => certMarkdownItem e.1 e.2)) ++ "\n"
       else "") ++
      (let caBundles := ownerMapGet caBundlesByOwner owner
       if caBundles.length > 0 then
         "### Certificate Authority Bundles\n" ++
         String.join (caBundles.enum.map (fun e => caBundleMarkdownItem e.1 e.2)) ++
         "\n"
       else "")))
  Except.ok md

/-- `GenerateViolationNoOwner` collects every registry entry whose owning
JIRA component is empty or `Unknown` into the ownership-violations registry,
renders the markdown report and returns the violation with a `nil` error (a
`some` second component would be the returned error). -/
def GenerateViolationNoOwner (pkiInfo : PKIRegistryInfo) : Violation × Option String :=
  let registry : PKIRegistryInfo :=
    { CertKeyPairs := collectCertKeyPairsNoOwner pkiInfo.CertKeyPairs,
      CertificateAuthorityBundles :=
        collectCABundlesNoOwner pkiInfo.CertificateAuthorityBundles }
  let v : Violation :=
    { name := "ownership-violations", markdown := "", registry := registry,
      secretCompareFn := diffCertKeyPairOwners,
      configMapCompareFn := diffCABundleOwners }
  match generateMarkdownNoOwner pkiInfo with
  | Except.error e => (v, some e)
  | Except.ok md => ({ v with markdown := md }, none)

end CertGraphUtils

namespace CertRotation

/-- The first-generation signing certificate of the cold-create scenario. -/
def oldSignerCert : Cert := newSigningCA "test-signer" 0 86400000 0

/-- The signing certificate regenerated by the second sync of the
signer-regeneration scenario. -/
def regenSignerCert : Cert := newSigningCA "test-signer" 0 86400000 2

theorem mem_dedupCertsLoop {x : Cert} :
    ∀ (l kept : List Cert), x ∈ dedupCertsLoop kept l ↔ x ∈ kept ∨ x ∈ l := by
  intro l
  induction l with
  | nil => intro kept; simp [dedupCertsLoop]
  | cons c rest ih =>
    intro kept
    rw [dedupCertsLoop]
    split
    · next hc =>
      rw [ih kept]
      constructor
      · rintro (h | h)
        · exact Or.inl h
        · exact Or.inr (List.mem_cons_of_mem _ h)
      · rintro (h | h)
        · exact Or.inl h
        · rcases List.mem_cons.mp h with rfl | h2
          · exact Or.inl (by simpa using hc)
          · exact Or.inr h2
    · rw [ih (kept ++ [c])]
      simp only [List.mem_append, List.mem_singleton, List.mem_cons]
      tauto

theorem dedupCertsLoop_pairwise :
    ∀ (l kept : List Cert), kept.Pairwise (· ≠ ·) →
      (dedupCertsLoop kept l).Pairwise (· ≠ ·) := by
  intro l
  induction l with
  | nil => intro kept h; simpa [dedupCertsLoop] using h
  | cons c rest ih =>
    intro kept h
    rw [dedupCertsLoop]
    split
    · exact ih kept h
    · next hc =>
      refine ih (kept ++ [c]) ?_
      rw [List.pairwise_append]
      refine ⟨h, List.pairwise_singleton _ _, ?_⟩
      intro a ha b hb
      rw [List.mem_singleton] at hb
      subst hb
      intro heq
      subst heq
      exact hc (by simpa using ha)

theorem dedupCertsLoop_append :
    ∀ (l kept : List Cert), ∃ t, dedupCertsLoop kept l = kept ++ t ∧ t.Sublist l := by
  intro l
  induction l with
  | nil => intro kept; exact ⟨[], by simp [dedupCertsLoop]⟩
  | cons c rest ih =>
    intro kept
    rw [dedupCertsLoop]
    split
    · obtain ⟨t, ht, hs⟩ := ih kept
      exact ⟨t, ht, hs.cons c⟩
    · obtain ⟨t, ht, hs⟩ := ih (kept ++ [c])
      refine ⟨c :: t, ?_, hs.cons₂ c⟩
      rw [ht, List.append_assoc]
      rfl

theorem mem_dedupCerts {x : Cert} {l : List Cert} : x ∈ dedupCerts l ↔ x ∈ l := by
  rw [dedupCerts, mem_dedupCertsLoop]
  simp

theorem dedupCerts_pairwise (l : List Cert) : (dedupCerts l).Pairwise (· ≠ ·) :=
  dedupCertsLoop_pairwise l [] (List.Pairwise.nil)

theorem dedupCerts_sublist (l : List Cert) : (dedupCerts l).Sublist l := by
  obtain ⟨t, ht, hs⟩ := dedupCertsLoop_append l []
  rw [dedupCerts, ht]
  simpa using hs

theorem mem_mergeBundle {x : Cert} {required existing : List Cert} {now : Nat} :
    x ∈ mergeBundle required existing now ↔
      (x ∈ required ++ existing ∧ now < x.notAfter) := by
  rw [mergeBundle, mem_dedupCerts, List.mem_filter]
  simp

theorem mergeBundle_pairwise (required existing : List Cert) (now : Nat) :
    (mergeBundle required existing now).Pairwise (· ≠ ·) :=
  dedupCerts_pairwise _

theorem mergeBundle_sublist (required existing : List Cert) (now : Nat) :
    (mergeBundle required existing now).Sublist (required ++ existing) :=
  (dedupCerts_sublist _).trans (List.filter_sublist _)

theorem mem_mergeBundle_notAfter {required existing : List Cert} {now : Nat}
    {c : Cert} (h : c ∈ mergeBundle required existing now) : now < c.notAfter :=
  (mem_mergeBundle.mp h).2

/-- The certificate list returned by `ensureConfigMapCABundle` is exactly the
merge of the required certificates with the cached bundle contents at the
world's clock. -/
theorem ensureConfigMapCABundle_fst (cfg : ControllerConfig) (sr : SignerResult)
    (w : World) :
    (ensureConfigMapCABundle cfg sr w).1 =
      mergeBundle (sr.ca :: sr.previous.toList)
        (((lookupConfigMap w.cache.configmaps cfg.bundle.name).getD
          (skeletonConfigMap cfg.bundle.name)).bundle) w.now := by
  unfold ensureConfigMapCABundle
  dsimp only
  split
  · dsimp only
    split
    · rfl
    · rfl
  · split
    · rfl
    · rfl

end CertRotation

/-- A string has length zero exactly when it is the empty string. -/
theorem string_length_eq_zero_iff {s : String} : s.length = 0 ↔ s = "" := by
  cases s with
  | mk data => simp [String.length, String.ext_iff, List.length_eq_zero]

namespace CertGraphUtils

theorem hasNoOwner_iff {o : String} :
    hasNoOwner o = true ↔ (o = "" ∨ o = "Unknown") := by
  rw [hasNoOwner]
  simp [string_length_eq_zero_iff, unknownOwner]

theorem collectCertKeyPairsNoOwner_eq_filter
    (l : List PKIRegistryInClusterCertKeyPair) :
    collectCertKeyPairsNoOwner l =
      l.filter (fun c => hasNoOwner c.CertKeyInfo.OwningJiraComponent) := by
  induction l with
  | nil => rfl
  | cons c rest ih =>
    rw [collectCertKeyPairsNoOwner, List.filter_cons]
    split
    · rw [ih]
    · rw [ih]

theorem collectCABundlesNoOwner_eq_filter
    (l : List PKIRegistryInClusterCABundle) :
    collectCABundlesNoOwner l =
      l.filter (fun b => hasNoOwner b.CABundleInfo.OwningJiraComponent) := by
  induction l with
  | nil => rfl
  | cons b rest ih =>
    rw [collectCABundlesNoOwner, List.filter_cons]
    split
    · rw [ih]
    · rw [ih]

end CertGraphUtils

namespace CertRotation

/-- C1: Cold create - starting from an empty store, a single `Sync` with one
serving leaf (hostnames `["foo","bar"]`) performs exactly six store calls in
the order get-secret, create-secret (signer), get-configmap,
create-configmap (CA bundle), get-secret, create-secret (target), creating
the signer secret, the CA-bundle configmap and the target secret in that
order, and the created bundle's `ca-bundle.crt` payload is byte-equal to the
signer secret's `tls.crt` payload. -/
theorem cold_create_sync :
    worldCold = Sync testConfig startWorld ∧
    startWorld.store = { secrets := [], configmaps := [] } ∧
    worldCold.trace =
      [StoreAction.getSecret "test-signer", StoreAction.createSecret "test-signer",
       StoreAction.getConfigMap "test-ca", StoreAction.createConfigMap "test-ca",
       StoreAction.getSecret "test-target", StoreAction.createSecret "test-target"] ∧
    worldCold.store.secrets.map SecretRec.name = ["test-signer", "test-target"] ∧
    worldCold.store.configmaps.map ConfigMapRec.name = ["test-ca"] ∧
    (lookupConfigMap worldCold.store.configmaps "test-ca").map ConfigMapRec.bundle =
      (lookupSecret worldCold.store.secrets "test-signer").map SecretRec.certs := by
  exact ⟨rfl, rfl, by decide, by decide, by decide, by decide⟩

/-- C2: Idempotence - after the cold-create `Sync`, with the three created
records placed in the informer cache, no wall-clock advance and no external
mutation, a second `Sync` issues zero store calls and leaves the store
untouched. -/
theorem idempotent_second_sync :
    worldCachedAll.cache = worldCold.store ∧
    worldCachedAll.now = worldCold.now ∧
    worldSecond = Sync testConfig worldCachedAll ∧
    worldSecond.trace = [] ∧
    worldSecond.store = worldCold.store := by
  exact ⟨rfl, rfl, rfl, by decide, by decide⟩

/-- C3 counterexample: in the signer-regeneration sync (bundle and leaf
cached, signer lost from the cache), the claim's final conjunct fails - the
leaf is NOT re-signed and NOT updated in the store during that same `Sync`:
no store call of the sync touches the target secret and the persisted target
record is unchanged. -/
theorem signer_regen_no_leaf_write_cex :
    ¬ (StoreAction.updateSecret "test-target" ∈ worldRegen.trace ∨
       StoreAction.createSecret "test-target" ∈ worldRegen.trace) ∧
    lookupSecret worldRegen.store.secrets "test-target" =
      lookupSecret worldCold.store.secrets "test-target" := by
  decide

/-- C3 (amended): after a cold create in which only the bundle and leaf
records are cached, the next `Sync` rebuilds the signer via update, and the
updated bundle contains both the old signer certificate and the newly
generated one; the leaf, however, is left untouched during that same `Sync`,
because the old CA is still in the bundle so the leaf still chains to a
trusted signer. -/
theorem signer_regeneration_sync :
    worldRegen.trace =
      [StoreAction.getSecret "test-signer", StoreAction.updateSecret "test-signer",
       StoreAction.getConfigMap "test-ca", StoreAction.updateConfigMap "test-ca"] ∧
    (lookupSecret worldRegen.store.secrets "test-signer").map SecretRec.certs =
      some [regenSignerCert] ∧
    regenSignerCert ≠ oldSignerCert ∧
    (lookupConfigMap worldRegen.store.configmaps "test-ca").map ConfigMapRec.bundle =
      some [regenSignerCert, oldSignerCert] ∧
    lookupSecret worldRegen.store.secrets "test-target" =
      lookupSecret worldCold.store.secrets "test-target" := by
  decide

/-- C4: Bundle pruning - every certificate in a merged bundle (and hence in
the bundle list produced by `ensureConfigMapCABundle`, which is what a `Sync`
computes and, when changed, writes) satisfies `NotAfter > now`; concretely,
with validity 1s, syncing, waiting 1s and syncing again yields a regenerated
bundle holding exactly the new signer certificate and not the expired old
one, with the leaf updated (get+update) to chain to the new signer. -/
theorem bundle_pruning :
    (∀ (required existing : List Cert) (now : Nat) (c : Cert),
        c ∈ mergeBundle required existing now → now < c.notAfter) ∧
    (∀ (cfg : ControllerConfig) (sr : SignerResult) (w : World) (c : Cert),
        c ∈ (ensureConfigMapCABundle cfg sr w).1 → w.now < c.notAfter) ∧
    (lookupConfigMap worldFastPruned.store.configmaps "test-ca").map
      ConfigMapRec.bundle = some [newFastSignerCert] ∧
    oldFastSignerCert ∉
      ((lookupConfigMap worldFastPruned.store.configmaps "test-ca").getD
        (skeletonConfigMap "test-ca")).bundle ∧
    (lookupSecret worldFastPruned.store.secrets "test-target").map
      SecretRec.issuerAnn = some (some newFastSignerCert.subjectCN) ∧
    worldFastPruned.trace =
      [StoreAction.getSecret "test-signer", StoreAction.updateSecret "test-signer",
       StoreAction.getConfigMap "test-ca", StoreAction.updateConfigMap "test-ca",
       StoreAction.getSecret "test-target", StoreAction.updateSecret "test-target"] := by
  refine ⟨fun required existing now c h => mem_mergeBundle_notAfter h,
          fun cfg sr w c h => ?_, by decide, by decide, by decide, by decide⟩
  rw [ensureConfigMapCABundle_fst] at h
  exact mem_mergeBundle_notAfter h

/-- C4 witness: the merge-level and ensure-level pruning bounds instantiated
at a concrete certificate. -/
theorem bundle_pruning_witness :
    caSignerTestsA ∈ mergeBundle [caSignerTestsA] [] 0 ∧
    0 < caSignerTestsA.notAfter :=
  ⟨by decide, bundle_pruning.1 [caSignerTestsA] [] 0 caSignerTestsA (by decide)⟩

/-- C5 counterexample: the bundle resulting from the merge can hold two
entries sharing the (issuer DN, serial) pair.  Feeding the merge a new CA and
an existing bundle holding a distinct certificate with the same issuer and
serial (the "update keep both" case of `TestEnsureConfigMapCABundle`, whose
expected result length is 2) keeps both, so the claimed invariant "no two
entries share (issuer DN, serial)" is false. -/
theorem bundle_dedup_key_cex :
    certKey caSignerTestsB = certKey caSignerTestsA ∧
    caSignerTestsB ≠ caSignerTestsA ∧
    mergeBundle [caSignerTestsB] [caSignerTestsA] 1000 =
      [caSignerTestsB, caSignerTestsA] ∧
    ¬ (mergeBundle [caSignerTestsB] [caSignerTestsA] 1000).Pairwise
        (fun a b => certKey a ≠ certKey b) := by
  decide

/-- C5 (amended): bundle deduplication is by full certificate identity (raw
bytes), keeping the first occurrence: the merged bundle never holds two equal
certificates, is a subsequence of required-then-existing (so order and first
occurrences are preserved) and keeps exactly the member set of its input;
merging a new CA into a bundle holding the same certificate twice yields
exactly two certificates, and merging into a bundle holding one distinct
valid CA (even one sharing issuer and serial) also yields exactly two. -/
theorem bundle_dedup :
    (∀ (required existing : List Cert) (now : Nat),
        (mergeBundle required existing now).Pairwise (· ≠ ·)) ∧
    (∀ (required existing : List Cert) (now : Nat),
        (mergeBundle required existing now).Sublist (required ++ existing)) ∧
    (∀ (l : List Cert) (x : Cert), x ∈ dedupCerts l ↔ x ∈ l) ∧
    mergeBundle [caSignerTestsB] [caSignerTestsA, caSignerTestsA] 1000 =
      [caSignerTestsB, caSignerTestsA] ∧
    mergeBundle [caSignerTestsB] [caSignerTestsA] 1000 =
      [caSignerTestsB, caSignerTestsA] :=
  ⟨mergeBundle_pairwise, mergeBundle_sublist, fun _ _ => mem_dedupCerts,
   by decide, by decide⟩

/-- C6: Owner aggregation - two distinct owners reconciling the same CA
bundle configmap in turn leave a record whose owner references contain each
owner exactly once in append order (the first writer's entry is never
rewritten), whose owning-component annotation equals the first writer's
value, and whose `ca-bundle.crt` content the second writer does not
change. -/
theorem owner_aggregation_hotloop :
    hotloopRun1.2.trace =
      [StoreAction.getConfigMap "trust-bundle", StoreAction.updateConfigMap "trust-bundle",
       StoreAction.getConfigMap "trust-bundle", StoreAction.updateConfigMap "trust-bundle"] ∧
    hotloopCMAfter1.ownerRefs = ["operator_1"] ∧
    hotloopCMAfter1.owningComponent = some "test_1" ∧
    hotloopRun2.2.trace =
      [StoreAction.getConfigMap "trust-bundle", StoreAction.updateConfigMap "trust-bundle"] ∧
    hotloopCMAfter2.ownerRefs = ["operator_1", "operator_2"] ∧
    hotloopCMAfter2.ownerRefs.count "operator_1" = 1 ∧
    hotloopCMAfter2.ownerRefs.count "operator_2" = 1 ∧
    hotloopCMAfter2.owningComponent = some "test_1" ∧
    hotloopCMAfter2.bundle = hotloopCMAfter1.bundle := by
  decide

/-- C7: Recheck trigger - a recheck pulse enqueues the sync key, and whenever
the key is pending the very next dispatcher turn runs `Sync` (no informer
event and no periodic tick needed); consequently, after the initial sync plus
one pulse per target each drained by the next turn, each of the two targets
has had `NeedNewTargetCertKeyPair` invoked at least 3 times. -/
theorem recheck_trigger :
    (∀ (cfg : ControllerConfig) (s : DispatchState),
        (dispatchStep cfg s DispatchEvent.pulse).pending = true) ∧
    (∀ (cfg : ControllerConfig) (s : DispatchState),
        s.pending = true →
          dispatchStep cfg s DispatchEvent.turn =
            { world := Sync cfg s.world, pending := false }) ∧
    3 ≤ dispatchAfterPulses.world.calls.count "test-target-one" ∧
    3 ≤ dispatchAfterPulses.world.calls.count "test-target-two" := by
  refine ⟨fun cfg s => rfl, fun cfg s h => ?_, by decide, by decide⟩
  simp [dispatchStep, h]

/-- C7 witness: the pending-implies-sync transition instantiated at the
dispatcher start state, whose key is pending. -/
theorem recheck_trigger_witness :
    dispatchStart.pending = true ∧
    dispatchStep twoTargetConfig dispatchStart DispatchEvent.turn =
      { world := Sync twoTargetConfig dispatchStart.world, pending := false } :=
  ⟨rfl, recheck_trigger.2.1 twoTargetConfig dispatchStart rfl⟩

end CertRotation

namespace RenderOptions

/-- C9: `GenericOptions.Validate` returns a non-nil error if and only if at
least one of `AssetInputDir`, `AssetOutputDir`, `TemplatesDir`,
`ConfigOutputFile` is the empty string, or `FeatureSet` is not one of the
four known feature sets; the default feature set is the empty string, so an
unset feature set is accepted (and `Validate`, modelled as a pure function of
the options, mutates nothing). -/
theorem generic_options_validate_iff :
    NewGenericOptions.FeatureSet = FeatureSetDefault ∧
    FeatureSetDefault = "" ∧
    ∀ o : GenericOptions,
      (GenericOptions.Validate o).isSome = true ↔
        (o.AssetInputDir = "" ∨ o.AssetOutputDir = "" ∨ o.TemplatesDir = "" ∨
         o.ConfigOutputFile = "" ∨
         ¬ (o.FeatureSet = FeatureSetDefault ∨
            o.FeatureSet = FeatureSetTechPreviewNoUpgrade ∨
            o.FeatureSet = FeatureSetCustomNoUpgrade ∨
            o.FeatureSet = FeatureSetLatencySensitive)) := by
  refine ⟨rfl, rfl, fun o => ?_⟩
  rw [GenericOptions.Validate]
  split_ifs with h1 h2 h3 h4 h5 <;>
    simp_all [string_length_eq_zero_iff]

end RenderOptions

namespace CertGraphUtils

/-- C10: `GenerateViolationNoOwner` places a certificate key pair
(respectively a CA bundle) into the returned violation registry if and only
if its `OwningJiraComponent` is the empty string or the literal `Unknown`,
preserves the relative order of the input registry (the collected lists are
subsequences of the input lists), and never returns an error for any
input. -/
theorem generate_violation_no_owner_spec :
    ∀ p : PKIRegistryInfo,
      (GenerateViolationNoOwner p).2 = none ∧
      ((GenerateViolationNoOwner p).1.registry.CertKeyPairs).Sublist
        p.CertKeyPairs ∧
      ((GenerateViolationNoOwner p).1.registry.CertificateAuthorityBundles).Sublist
        p.CertificateAuthorityBundles ∧
      (∀ c, c ∈ (GenerateViolationNoOwner p).1.registry.CertKeyPairs ↔
        (c ∈ p.CertKeyPairs ∧
         (c.CertKeyInfo.OwningJiraComponent = "" ∨
          c.CertKeyInfo.OwningJiraComponent = "Unknown"))) ∧
      (∀ b, b ∈ (GenerateViolationNoOwner p).1.registry.CertificateAuthorityBundles ↔
        (b ∈ p.CertificateAuthorityBundles ∧
         (b.CABundleInfo.OwningJiraComponent = "" ∨
          b.CABundleInfo.OwningJiraComponent = "Unknown"))) := by
  intro p
  refine ⟨rfl, ?_, ?_, ?_, ?_⟩
  · show (collectCertKeyPairsNoOwner p.CertKeyPairs).Sublist p.CertKeyPairs
    rw [collectCertKeyPairsNoOwner_eq_filter]
    exact List.filter_sublist _
  · show (collectCABundlesNoOwner p.CertificateAuthorityBundles).Sublist
      p.CertificateAuthorityBundles
    rw [collectCABundlesNoOwner_eq_filter]
    exact List.filter_sublist _
  · intro c
    show c ∈ collectCertKeyPairsNoOwner p.CertKeyPairs ↔ _
    rw [collectCertKeyPairsNoOwner_eq_filter, List.mem_filter, hasNoOwner_iff]
  · intro b
    show b ∈ collectCABundlesNoOwner p.CertificateAuthorityBundles ↔ _
    rw [collectCABundlesNoOwner_eq_filter, List.mem_filter, hasNoOwner_iff]

end CertGraphUtils

end LibraryGo
